import Mathlib

/-!
A verification development for a minimal preemptive RTOS kernel (rtos.c):
a shallow embedding of the task-control-block store and of the kernel
operations, followed by theorems about the dispatcher, the tick engine,
the context-switch protocol and the public API.

Modelling conventions.
Machine integers are modelled as Nat with explicit reduction modulo 2^32
where the C code can wrap (rtos_tick_t is uint32_t); priorities are
uint8_t values; task handles (rtos_task_handle_t) are Int, with -1 for
INVALID_TASK.  Stack pointers (uint32_t*) are modelled as Int word
addresses; the private stack region of the TCB at index i starts at the
word address cfg.stackBase i.  Writing a TCB through a negative or
out-of-range handle is undefined behavior in the C code and is modelled
as a no-op; every theorem whose proof would cross such an access carries
hypotheses keeping the accesses in range.  Hardware effects (SysTick
registers, GPIO heartbeat, the PendSV pending bit in SCB->ICSR, the CPU
stack-pointer register) are modelled by the pendsv and cpu_sp fields of
the Kernel state; the configuration constants RTOS_MAX_NUMBER_OF_TASKS
and RTOS_STACK_SIZE come from rtos_config.h (not part of the kernel
source) and are carried in a Config parameter.
-/

/-- Module define STACK_FRAME_SIZE (words of the hardware exception frame). -/
def STACK_FRAME_SIZE : Nat := 8

/-- Module define STACK_PC_OFFSET: the PC slot, counted from the stack top. -/
def STACK_PC_OFFSET : Nat := 2

/-- Module define STACK_PSR_OFFSET: the status-word slot, from the stack top. -/
def STACK_PSR_OFFSET : Nat := 1

/-- Module define STACK_PSR_DEFAULT (thumb bit set). -/
def STACK_PSR_DEFAULT : Nat := 0x01000000

/-- Module define INVALID_TASK. -/
def INVALID_TASK : Int := -1

/-- 2^32, the modulus of uint32_t (rtos_tick_t) arithmetic. -/
def UINT32_MOD : Nat := 4294967296

/-- task_state_e from rtos.c (S_READY = 0 is the zero-initialised state). -/
inductive task_state_e
  | S_READY
  | S_RUNNING
  | S_WAITING
  | S_SUSPENDED
deriving DecidableEq

/-- task_switch_type_e from rtos.c. -/
inductive task_switch_type_e
  | kFromISR
  | kFromNormalExec
deriving DecidableEq

/-- rtos_autostart_e from rtos.h (values used by rtos.c). -/
inductive rtos_autostart_e
  | kAutoStart
  | kStartSuspended
deriving DecidableEq

open task_state_e task_switch_type_e rtos_autostart_e

/-- rtos_tcb_t from rtos.c.  The reserved[10] debug padding is read and
written by no kernel operation and is omitted.  stack models
uint32_t stack[RTOS_STACK_SIZE]; sp is the saved stack pointer as a word
address. -/
structure rtos_tcb_t where
  priority : Nat
  state : task_state_e
  sp : Int
  task_body : Nat
  local_tick : Nat
  stack : List Nat
deriving DecidableEq

/-- Build-time configuration (rtos_config.h) plus the platform facts the
embedding needs: where each TCB's stack region sits in the address space
and the address of the idle task body. -/
structure Config where
  maxTasks : Nat
  stackSize : Nat
  stackBase : Nat → Int
  idle_task_addr : Nat

/-- The global task_list aggregate from rtos.c: task count, current and
next task handles, the TCB array of RTOS_MAX_NUMBER_OF_TASKS + 1 slots,
and the global tick counter. -/
structure TaskList where
  nTasks : Nat
  current_task : Int
  next_task : Int
  tasks : List rtos_tcb_t
  global_tick : Nat
deriving DecidableEq

/-- The full kernel state: the task_list, the static first_run flag of
context_switch (initially true, i.e. 1), the PendSV pending bit of
SCB->ICSR, and the CPU stack-pointer register (word address). -/
structure Kernel where
  task_list : TaskList
  first_run : Bool
  pendsv : Bool
  cpu_sp : Int
deriving DecidableEq

/-- The all-zero TCB, used as the default for out-of-range reads (which
are undefined behavior in the C source).  Its state is S_READY because
S_READY = 0. -/
def tcb0 : rtos_tcb_t :=
  { priority := 0, state := S_READY, sp := 0, task_body := 0, local_tick := 0, stack := [] }

/-- Read task_list.tasks[i] for a Nat index. -/
def getTaskNat (tl : TaskList) (i : Nat) : rtos_tcb_t :=
  tl.tasks.getD i tcb0

/-- Write task_list.tasks[i] for a Nat index. -/
def setTaskNat (tl : TaskList) (i : Nat) (t : rtos_tcb_t) : TaskList :=
  { tl with tasks := tl.tasks.set i t }

/-- Update task_list.tasks[i] in place for a Nat index. -/
def updateTaskNat (tl : TaskList) (i : Nat) (f : rtos_tcb_t → rtos_tcb_t) : TaskList :=
  setTaskNat tl i (f (getTaskNat tl i))

/-- Update task_list.tasks[h] through a handle.  A negative handle is an
out-of-bounds write in C (undefined behavior); modelled as a no-op. -/
def updateTaskI (tl : TaskList) (h : Int) (f : rtos_tcb_t → rtos_tcb_t) : TaskList :=
  if 0 ≤ h then updateTaskNat tl h.toNat f else tl

/-- Read task_list.tasks[h] through a handle. -/
def getTaskI (tl : TaskList) (h : Int) : rtos_tcb_t :=
  if 0 ≤ h then getTaskNat tl h.toNat else tcb0

/-- A TCB slot as zero-initialised static storage. -/
def zeroTCB (cfg : Config) : rtos_tcb_t :=
  { priority := 0, state := S_READY, sp := 0, task_body := 0, local_tick := 0,
    stack := List.replicate cfg.stackSize 0 }

/-- The zero-initialised global: struct task_list = { 0 }. -/
def initTaskList (cfg : Config) : TaskList :=
  { nTasks := 0, current_task := 0, next_task := 0,
    tasks := List.replicate (cfg.maxTasks + 1) (zeroTCB cfg), global_tick := 0 }

/-- rtos_create_task from rtos.c.  Returns the updated store and the
rtos_task_handle_t result (INVALID_TASK on capacity exhaustion).  On the
32-bit target the (uint32_t) cast of the task body pointer is the
identity, so the entry address is stored unchanged in the PC slot. -/
def rtos_create_task (cfg : Config) (tl : TaskList) (task_body priority : Nat)
    (autostart : rtos_autostart_e) : TaskList × Int :=
  if cfg.maxTasks > tl.nTasks then
    let i := tl.nTasks
    let t := getTaskNat tl i
    let t1 : rtos_tcb_t :=
      { t with
        priority := priority
        local_tick := 0
        task_body := task_body
        sp := cfg.stackBase i + ((cfg.stackSize : Int) - 1 - (STACK_FRAME_SIZE : Int))
        state := if kStartSuspended = autostart then S_SUSPENDED else S_READY
        stack := (t.stack.set (cfg.stackSize - STACK_PC_OFFSET) task_body).set
                   (cfg.stackSize - STACK_PSR_OFFSET) STACK_PSR_DEFAULT }
    ({ setTaskNat tl i t1 with nTasks := tl.nTasks + 1 }, (i : Int))
  else (tl, INVALID_TASK)

/-- rtos_get_clock from rtos.c. -/
def rtos_get_clock (tl : TaskList) : Nat :=
  tl.global_tick

/-- The int8_t value of a uint8_t priority: the assignment
highest = task_list.tasks[index].priority truncates into a signed
8-bit variable (two's-complement wrap on the target). -/
def toInt8 (p : Nat) : Int :=
  let r : Nat := p % 256
  if r < 128 then (r : Int) else (r : Int) - 256

/-- The dispatcher's scan over indices [0, m): the local variables
(next_task, highest), starting at (INVALID_TASK, -1).  The comparison
highest < priority is an int comparison (both operands promoted); the
selected priority is stored back truncated to int8_t. -/
def dispLoop (tl : TaskList) : Nat → Int × Int
  | 0 => (INVALID_TASK, -1)
  | m + 1 =>
    let p := dispLoop tl m
    let t := getTaskNat tl m
    if p.2 < (t.priority : Int) ∧ (t.state = S_READY ∨ t.state = S_RUNNING) then
      ((m : Int), toInt8 t.priority)
    else p

/-- context_switch from rtos.c (Phase 1 of the switch protocol).  On the
target, register sp asm("sp") observes the CPU stack pointer (cpu_sp);
sp - 9 and sp + 9 are uint32_t* arithmetic, i.e. word offsets.
SCB->ICSR |= SCB_ICSR_PENDSVSET_Msk pends the PendSV interrupt. -/
def context_switch (type : task_switch_type_e) (k : Kernel) : Kernel :=
  let saved :=
    if k.first_run = false then
      { k with task_list :=
          updateTaskI k.task_list k.task_list.current_task (fun t =>
            { t with sp := if kFromNormalExec = type then k.cpu_sp - 9 else k.cpu_sp + 9 }) }
    else k
  let tl1 := { saved.task_list with current_task := saved.task_list.next_task }
  let tl2 := updateTaskI tl1 tl1.current_task (fun t => { t with state := S_RUNNING })
  { saved with task_list := tl2, first_run := false, pendsv := true }

/-- dispatcher from rtos.c: scan all created tasks, then switch when the
winner differs from the current task. -/
def dispatcher (type : task_switch_type_e) (k : Kernel) : Kernel :=
  let next_task := (dispLoop k.task_list k.task_list.nTasks).1
  if next_task ≠ k.task_list.current_task then
    context_switch type { k with task_list := { k.task_list with next_task := next_task } }
  else k

/-- rtos_delay from rtos.c.  The ticks parameter is a uint32_t value. -/
def rtos_delay (k : Kernel) (ticks : Nat) : Kernel :=
  let tl := updateTaskI k.task_list k.task_list.current_task (fun t =>
    { t with state := S_WAITING, local_tick := ticks % UINT32_MOD })
  dispatcher kFromNormalExec { k with task_list := tl }

/-- rtos_suspend_task from rtos.c. -/
def rtos_suspend_task (k : Kernel) : Kernel :=
  let tl := updateTaskI k.task_list k.task_list.current_task (fun t =>
    { t with state := S_SUSPENDED })
  dispatcher kFromNormalExec { k with task_list := tl }

/-- rtos_activate_task from rtos.c: write S_READY into the target TCB
(no check of its previous state), then dispatch. -/
def rtos_activate_task (k : Kernel) (task : Int) : Kernel :=
  let tl := updateTaskI k.task_list task (fun t => { t with state := S_READY })
  dispatcher kFromNormalExec { k with task_list := tl }

/-- The body of the activate_waiting_tasks loop for one TCB: a WAITING
task has its local_tick decremented (uint32_t wrap-around), and becomes
READY exactly when the decremented counter is zero. -/
def awt_body (t : rtos_tcb_t) : rtos_tcb_t :=
  if t.state = S_WAITING then
    let lt := (t.local_tick + (UINT32_MOD - 1)) % UINT32_MOD
    if lt = 0 then { t with local_tick := lt, state := S_READY }
    else { t with local_tick := lt }
  else t

/-- The activate_waiting_tasks loop over the first m indices, processed
in ascending order (index m - 1 last). -/
def awtLoop (tl : TaskList) : Nat → TaskList
  | 0 => tl
  | m + 1 => updateTaskNat (awtLoop tl m) m awt_body

/-- activate_waiting_tasks from rtos.c: the loop runs with condition
task_to_check <= task_list.nTasks, i.e. over [0, nTasks] inclusive. -/
def activate_waiting_tasks (tl : TaskList) : TaskList :=
  awtLoop tl (tl.nTasks + 1)

/-- The wake-up pass over the half-open range [0, nTasks) only.  This is
the second definition of a refinement pair: it follows the
specification's words (the loop is defined over [0, n) only), to be
compared with activate_waiting_tasks, which follows the source. -/
def activate_waiting_tasks_spec (tl : TaskList) : TaskList :=
  awtLoop tl tl.nTasks

/-- SysTick_Handler from rtos.c.  refresh_is_alive and reload_systick
touch only external hardware (GPIO and SysTick registers), not the TCB
store, and are omitted.  global_tick is a uint32_t counter. -/
def SysTick_Handler (k : Kernel) : Kernel :=
  let tl := { k.task_list with global_tick := (k.task_list.global_tick + 1) % UINT32_MOD }
  let tl := activate_waiting_tasks tl
  dispatcher kFromISR { k with task_list := tl }

/-- PendSV_Handler from rtos.c (Phase 2 of the switch protocol): clear
the PendSV pending bit (SCB->ICSR |= SCB_ICSR_PENDSVCLR_Msk), read the
current task's saved stack pointer and install it as the active CPU
stack pointer (through the r0 / r7 register trick and the compiler
epilogue of the handler). -/
def PendSV_Handler (k : Kernel) : Kernel :=
  { k with pendsv := false,
           cpu_sp := (getTaskI k.task_list k.task_list.current_task).sp }

/-- rtos_start_scheduler from rtos.c, with RTOS_ENABLE_IS_ALIVE defined
(the configuration under which the bring-up block that registers the
idle task is compiled in): reset global_tick, invalidate current_task,
and create the idle task with priority 0 and kAutoStart.  The SysTick
programming and the final infinite loop touch only hardware and are
omitted; init_is_alive touches only GPIO.  Returns the store and the
handle the idle-task creation returned. -/
def rtos_start_scheduler (cfg : Config) (tl : TaskList) : TaskList × Int :=
  let tl := { tl with global_tick := 0, current_task := INVALID_TASK }
  rtos_create_task cfg tl cfg.idle_task_addr 0 kAutoStart

/-- A task is eligible for dispatch: state READY or RUNNING. -/
def runnable (t : rtos_tcb_t) : Prop :=
  t.state = S_READY ∨ t.state = S_RUNNING

instance (t : rtos_tcb_t) : Decidable (runnable t) :=
  inferInstanceAs (Decidable (t.state = S_READY ∨ t.state = S_RUNNING))

/-- At most one created task is in state RUNNING. -/
def atMostOneRunning (tl : TaskList) : Prop :=
  ∀ i < tl.nTasks, ∀ j < tl.nTasks,
    (getTaskNat tl i).state = S_RUNNING → (getTaskNat tl j).state = S_RUNNING → i = j

instance (tl : TaskList) : Decidable (atMostOneRunning tl) := by
  unfold atMostOneRunning; infer_instance

/-- A concrete TCB with a 16-word stack, for the example states below. -/
def mkTCB (p : Nat) (st : task_state_e) (lt : Nat) : rtos_tcb_t :=
  { priority := p, state := st, sp := 0, task_body := 0, local_tick := lt,
    stack := List.replicate 16 0 }

/-- Concrete configuration: 2 user tasks, 16-word stacks. -/
def cfg3 : Config :=
  { maxTasks := 2, stackSize := 16, stackBase := fun i => 1000 * (i : Int),
    idle_task_addr := 900 }

/-- Concrete kernel for the delay(0) counterexample: task 0 (priority 2)
is RUNNING and current, task 1 is the idle task (priority 0, READY); the
slot at index nTasks = 2 is still zero-initialised. -/
def kC1 : Kernel :=
  { task_list :=
      { nTasks := 2, current_task := 0, next_task := 0,
        tasks := [mkTCB 2 S_RUNNING 0, mkTCB 0 S_READY 0, mkTCB 0 S_READY 0],
        global_tick := 17 },
    first_run := false, pendsv := false, cpu_sp := 5000 }

/-- Concrete kernel for the two-RUNNING counterexample: task 1
(priority 1) is RUNNING and current, task 0 (priority 2) is READY. -/
def kC2 : Kernel :=
  { task_list :=
      { nTasks := 2, current_task := 1, next_task := 1,
        tasks := [mkTCB 2 S_READY 0, mkTCB 1 S_RUNNING 0, mkTCB 0 S_READY 0],
        global_tick := 3 },
    first_run := false, pendsv := false, cpu_sp := 8000 }

/-- Concrete kernel for the priority-128 counterexample: task 0 with
priority 128 is RUNNING and current, task 1 with priority 1 is READY. -/
def kC4 : Kernel :=
  { task_list :=
      { nTasks := 2, current_task := 0, next_task := 0,
        tasks := [mkTCB 128 S_RUNNING 0, mkTCB 1 S_READY 0, mkTCB 0 S_READY 0],
        global_tick := 0 },
    first_run := false, pendsv := false, cpu_sp := 8000 }

/-- Concrete kernel used by the witness of the delay(0) theorem. -/
def kW1 : Kernel :=
  { task_list :=
      { nTasks := 2, current_task := 0, next_task := 0,
        tasks := [mkTCB 3 S_RUNNING 0, mkTCB 0 S_READY 0, mkTCB 0 S_READY 0],
        global_tick := 40 },
    first_run := false, pendsv := false, cpu_sp := 6000 }

/-- Concrete kernel used by the witness of the single-RUNNING theorem. -/
def kW2 : Kernel :=
  { task_list :=
      { nTasks := 2, current_task := 0, next_task := 0,
        tasks := [mkTCB 3 S_RUNNING 0, mkTCB 0 S_READY 0, mkTCB 0 S_READY 0],
        global_tick := 12 },
    first_run := false, pendsv := false, cpu_sp := 7000 }

/-- Concrete kernel used by the witness of the dispatcher theorem: the
current task 0 is RUNNING with the top priority, so the dispatcher must
return without side effects. -/
def kW4 : Kernel :=
  { task_list :=
      { nTasks := 2, current_task := 0, next_task := 0,
        tasks := [mkTCB 5 S_RUNNING 0, mkTCB 3 S_READY 0, mkTCB 0 S_READY 0],
        global_tick := 9 },
    first_run := false, pendsv := false, cpu_sp := 7000 }

/-- Concrete store used by the witnesses of the create_task theorems:
one task already created out of two. -/
def tlW5 : TaskList :=
  { nTasks := 1, current_task := 0, next_task := 0,
    tasks := [mkTCB 1 S_READY 0, mkTCB 0 S_READY 0, mkTCB 0 S_READY 0],
    global_tick := 0 }

/-- Concrete store used by the witness of the wake-up-pass theorem: one
WAITING task about to expire, one with ticks left; slot 2 (= nTasks) is
zero-initialised, hence READY. -/
def tlW8 : TaskList :=
  { nTasks := 2, current_task := 0, next_task := 0,
    tasks := [mkTCB 2 S_WAITING 1, mkTCB 1 S_WAITING 5, mkTCB 0 S_READY 0],
    global_tick := 64 }

/-- Concrete kernel used by the witness of the context-switch theorem:
a pending switch from task 0 to task 1. -/
def kW6 : Kernel :=
  { task_list :=
      { nTasks := 2, current_task := 0, next_task := 1,
        tasks := [mkTCB 2 S_READY 0, mkTCB 1 S_READY 0, mkTCB 0 S_READY 0],
        global_tick := 5 },
    first_run := false, pendsv := false, cpu_sp := 4321 }

/-- The common shape of the self-referential API mutations: update the
TCB of the current task in place.  rtos_delay and rtos_suspend_task are
definitionally dispatcher applications to such a state. -/
def writeCurrent (k : Kernel) (f : rtos_tcb_t → rtos_tcb_t) : Kernel :=
  { k with task_list := updateTaskI k.task_list k.task_list.current_task f }

theorem list_set_oob {α : Type} (l : List α) (i : Nat) (a : α) (h : l.length ≤ i) :
    l.set i a = l := by
  induction l generalizing i with
  | nil => rfl
  | cons x xs ih =>
    cases i with
    | zero => simp at h
    | succ i =>
      simp only [List.set]
      simp only [List.length_cons, Nat.succ_le_succ_iff] at h
      rw [ih i h]

theorem list_getD_set {α : Type} (l : List α) (i j : Nat) (a d : α) :
    (l.set i a).getD j d = if i = j ∧ j < l.length then a else l.getD j d := by
  induction l generalizing i j with
  | nil => simp [List.set]
  | cons x xs ih =>
    cases i with
    | zero =>
      cases j with
      | zero => simp
      | succ j => simp [List.getD_cons_succ]
    | succ i =>
      cases j with
      | zero => simp
      | succ j =>
        simp only [List.set, List.getD_cons_succ, List.length_cons]
        rw [ih i j]
        by_cases hij : i = j
        · subst hij
          by_cases hl : i < xs.length
          · rw [if_pos ⟨rfl, hl⟩, if_pos ⟨rfl, Nat.succ_lt_succ hl⟩]
          · rw [if_neg (fun hc => hl hc.2), if_neg (fun hc => hl (Nat.lt_of_succ_lt_succ hc.2))]
        · rw [if_neg (fun hc => hij hc.1),
              if_neg (fun hc => hij (Nat.succ_injective hc.1))]

theorem list_set_getD_self {α : Type} (l : List α) (i : Nat) (d : α) :
    l.set i (l.getD i d) = l := by
  induction l generalizing i with
  | nil => rfl
  | cons x xs ih =>
    cases i with
    | zero => simp
    | succ i =>
      show x :: xs.set i ((x :: xs).getD (i + 1) d) = x :: xs
      rw [List.getD_cons_succ, ih i]

theorem getTaskNat_oob (tl : TaskList) (i : Nat) (h : tl.tasks.length ≤ i) :
    getTaskNat tl i = tcb0 := by
  unfold getTaskNat
  exact List.getD_eq_default _ _ h

theorem setTaskNat_nTasks (tl : TaskList) (i : Nat) (t : rtos_tcb_t) :
    (setTaskNat tl i t).nTasks = tl.nTasks := rfl

theorem setTaskNat_current (tl : TaskList) (i : Nat) (t : rtos_tcb_t) :
    (setTaskNat tl i t).current_task = tl.current_task := rfl

theorem setTaskNat_next (tl : TaskList) (i : Nat) (t : rtos_tcb_t) :
    (setTaskNat tl i t).next_task = tl.next_task := rfl

theorem setTaskNat_global (tl : TaskList) (i : Nat) (t : rtos_tcb_t) :
    (setTaskNat tl i t).global_tick = tl.global_tick := rfl

theorem setTaskNat_length (tl : TaskList) (i : Nat) (t : rtos_tcb_t) :
    (setTaskNat tl i t).tasks.length = tl.tasks.length := by
  unfold setTaskNat
  exact List.length_set tl.tasks i t

theorem getTaskNat_setTaskNat (tl : TaskList) (i j : Nat) (t : rtos_tcb_t) :
    getTaskNat (setTaskNat tl i t) j =
      if i = j ∧ j < tl.tasks.length then t else getTaskNat tl j := by
  unfold getTaskNat setTaskNat
  exact list_getD_set tl.tasks i j t tcb0

theorem updateTaskI_nTasks (tl : TaskList) (h : Int) (f : rtos_tcb_t → rtos_tcb_t) :
    (updateTaskI tl h f).nTasks = tl.nTasks := by
  unfold updateTaskI updateTaskNat
  split <;> rfl

theorem updateTaskI_current (tl : TaskList) (h : Int) (f : rtos_tcb_t → rtos_tcb_t) :
    (updateTaskI tl h f).current_task = tl.current_task := by
  unfold updateTaskI updateTaskNat
  split <;> rfl

theorem updateTaskI_next (tl : TaskList) (h : Int) (f : rtos_tcb_t → rtos_tcb_t) :
    (updateTaskI tl h f).next_task = tl.next_task := by
  unfold updateTaskI updateTaskNat
  split <;> rfl

theorem updateTaskI_global (tl : TaskList) (h : Int) (f : rtos_tcb_t → rtos_tcb_t) :
    (updateTaskI tl h f).global_tick = tl.global_tick := by
  unfold updateTaskI updateTaskNat
  split <;> rfl

theorem updateTaskI_length (tl : TaskList) (h : Int) (f : rtos_tcb_t → rtos_tcb_t) :
    (updateTaskI tl h f).tasks.length = tl.tasks.length := by
  unfold updateTaskI updateTaskNat
  split
  · exact setTaskNat_length _ _ _
  · rfl

theorem getTaskNat_updateTaskI (tl : TaskList) (h : Int) (f : rtos_tcb_t → rtos_tcb_t)
    (j : Nat) :
    getTaskNat (updateTaskI tl h f) j =
      if 0 ≤ h ∧ h.toNat = j ∧ j < tl.tasks.length then f (getTaskNat tl j)
      else getTaskNat tl j := by
  unfold updateTaskI updateTaskNat
  by_cases h0 : 0 ≤ h
  · rw [if_pos h0, getTaskNat_setTaskNat]
    by_cases hj : h.toNat = j ∧ j < tl.tasks.length
    · rw [if_pos hj, if_pos ⟨h0, hj⟩, hj.1]
    · rw [if_neg hj, if_neg (fun hc => hj ⟨hc.2.1, hc.2.2⟩)]
  · rw [if_neg h0, if_neg (fun hc => h0 hc.1)]

theorem awt_body_tcb0 : awt_body tcb0 = tcb0 := rfl

theorem awt_body_not_waiting (t : rtos_tcb_t) (h : t.state ≠ S_WAITING) :
    awt_body t = t := by
  unfold awt_body
  rw [if_neg h]

theorem awtLoop_nTasks (tl : TaskList) (m : Nat) : (awtLoop tl m).nTasks = tl.nTasks := by
  induction m with
  | zero => rfl
  | succ m ih => simpa [awtLoop, updateTaskNat, setTaskNat_nTasks] using ih

theorem awtLoop_current (tl : TaskList) (m : Nat) :
    (awtLoop tl m).current_task = tl.current_task := by
  induction m with
  | zero => rfl
  | succ m ih => simpa [awtLoop, updateTaskNat, setTaskNat_current] using ih

theorem awtLoop_next (tl : TaskList) (m : Nat) :
    (awtLoop tl m).next_task = tl.next_task := by
  induction m with
  | zero => rfl
  | succ m ih => simpa [awtLoop, updateTaskNat, setTaskNat_next] using ih

theorem awtLoop_global (tl : TaskList) (m : Nat) :
    (awtLoop tl m).global_tick = tl.global_tick := by
  induction m with
  | zero => rfl
  | succ m ih => simpa [awtLoop, updateTaskNat, setTaskNat_global] using ih

theorem awtLoop_length (tl : TaskList) (m : Nat) :
    (awtLoop tl m).tasks.length = tl.tasks.length := by
  induction m with
  | zero => rfl
  | succ m ih =>
    show (updateTaskNat (awtLoop tl m) m awt_body).tasks.length = tl.tasks.length
    unfold updateTaskNat
    rw [setTaskNat_length, ih]

theorem awtLoop_getTaskNat (tl : TaskList) (m j : Nat) :
    getTaskNat (awtLoop tl m) j =
      if j < m then awt_body (getTaskNat tl j) else getTaskNat tl j := by
  induction m with
  | zero => rw [if_neg (Nat.not_lt_zero j)]; rfl
  | succ m ih =>
    show getTaskNat (updateTaskNat (awtLoop tl m) m awt_body) j = _
    unfold updateTaskNat
    rw [getTaskNat_setTaskNat, awtLoop_length]
    by_cases hmj : m = j
    · subst hmj
      rw [ih, if_neg (Nat.lt_irrefl m), if_pos (Nat.lt_succ_self m)]
      by_cases hl : m < tl.tasks.length
      · rw [if_pos ⟨rfl, hl⟩]
      · rw [if_neg (fun hc => hl hc.2),
            getTaskNat_oob tl m (Nat.le_of_not_lt hl), awt_body_tcb0]
    · rw [if_neg (fun hc => hmj hc.1), ih]
      by_cases hj : j < m
      · rw [if_pos hj, if_pos (Nat.lt_succ_of_lt hj)]
      · rw [if_neg hj, if_neg (fun hc => hmj (Nat.le_antisymm
          (Nat.le_of_lt_succ hc) (Nat.le_of_not_lt hj)).symm)]

theorem toInt8_small (p : Nat) (h : p < 128) : toInt8 p = (p : Int) := by
  unfold toInt8
  have hm : p % 256 = p := Nat.mod_eq_of_lt (Nat.lt_trans h (by norm_num))
  simp only [hm, if_pos h]

theorem dispLoop_cases (tl : TaskList) (m : Nat) :
    (dispLoop tl m = (INVALID_TASK, -1) ∧ ∀ j < m, ¬ runnable (getTaskNat tl j)) ∨
    (∃ t : Nat, t < m ∧ (dispLoop tl m).1 = (t : Int) ∧ runnable (getTaskNat tl t) ∧
      (dispLoop tl m).2 = toInt8 (getTaskNat tl t).priority) := by
  induction m with
  | zero =>
    exact Or.inl ⟨rfl, fun j hj => absurd hj (Nat.not_lt_zero j)⟩
  | succ m ih =>
    show (dispLoop tl (m + 1) = _ ∧ _) ∨ _
    by_cases hsel : (dispLoop tl m).2 < ((getTaskNat tl m).priority : Int) ∧
        ((getTaskNat tl m).state = S_READY ∨ (getTaskNat tl m).state = S_RUNNING)
    · refine Or.inr ⟨m, Nat.lt_succ_self m, ?_, hsel.2, ?_⟩
      · show (if _ then ((m : Int), toInt8 (getTaskNat tl m).priority) else _).1 = _
        rw [if_pos hsel]
      · show (if _ then ((m : Int), toInt8 (getTaskNat tl m).priority) else _).2 = _
        rw [if_pos hsel]
    · have hstep : dispLoop tl (m + 1) = dispLoop tl m := by
        show (if _ then _ else dispLoop tl m) = dispLoop tl m
        rw [if_neg hsel]
      rcases ih with ⟨hval, hnone⟩ | ⟨t, ht, hv1, hrun, hv2⟩
      · refine Or.inl ⟨hstep.trans hval, fun j hj hc => ?_⟩
        rcases Nat.lt_succ_iff_lt_or_eq.mp hj with hj | hj
        · exact hnone j hj hc
        · subst hj
          apply hsel
          refine ⟨?_, hc⟩
          rw [hval]
          have : (0 : Int) ≤ ((getTaskNat tl j).priority : Int) := Int.ofNat_nonneg _
          omega
      · exact Or.inr ⟨t, Nat.lt_succ_of_lt ht, hstep ▸ hv1, hrun, hstep ▸ hv2⟩

theorem dispLoop_found (tl : TaskList) (m : Nat)
    (hcand : ∃ j < m, runnable (getTaskNat tl j)) :
    ∃ t : Nat, t < m ∧ (dispLoop tl m).1 = (t : Int) ∧ runnable (getTaskNat tl t) := by
  rcases dispLoop_cases tl m with ⟨_, hnone⟩ | ⟨t, ht, hv1, hrun, _⟩
  · rcases hcand with ⟨j, hj, hr⟩
    exact absurd hr (hnone j hj)
  · exact ⟨t, ht, hv1, hrun⟩

theorem dispLoop_max (tl : TaskList) (m : Nat)
    (hp : ∀ i < m, (getTaskNat tl i).priority < 128) :
    (dispLoop tl m = (INVALID_TASK, -1) ∧ ∀ j < m, ¬ runnable (getTaskNat tl j)) ∨
    (∃ t : Nat, t < m ∧
      dispLoop tl m = ((t : Int), ((getTaskNat tl t).priority : Int)) ∧
      runnable (getTaskNat tl t) ∧
      (∀ j < m, runnable (getTaskNat tl j) →
        (getTaskNat tl j).priority ≤ (getTaskNat tl t).priority) ∧
      (∀ j < m, runnable (getTaskNat tl j) →
        (getTaskNat tl j).priority = (getTaskNat tl t).priority → t ≤ j)) := by
  induction m with
  | zero =>
    exact Or.inl ⟨rfl, fun j hj => absurd hj (Nat.not_lt_zero j)⟩
  | succ m ih =>
    have hp2 : ∀ i < m, (getTaskNat tl i).priority < 128 :=
      fun i hi => hp i (Nat.lt_succ_of_lt hi)
    have hpm := hp m (Nat.lt_succ_self m)
    by_cases hsel : (dispLoop tl m).2 < ((getTaskNat tl m).priority : Int) ∧
        ((getTaskNat tl m).state = S_READY ∨ (getTaskNat tl m).state = S_RUNNING)
    · have hstep : dispLoop tl (m + 1) = ((m : Int), toInt8 (getTaskNat tl m).priority) := by
        show (if _ then _ else _) = _
        rw [if_pos hsel]
      refine Or.inr ⟨m, Nat.lt_succ_self m, ?_, hsel.2, ?_, ?_⟩
      · rw [hstep, toInt8_small _ hpm]
      · intro j hj hr
        rcases Nat.lt_succ_iff_lt_or_eq.mp hj with hj | hj
        · rcases ih hp2 with ⟨hval, hnone⟩ | ⟨t, ht, hvt, hrt, hmax, htie⟩
          · exact absurd hr (hnone j hj)
          · have h1 := hmax j hj hr
            have h2 : (getTaskNat tl t).priority < (getTaskNat tl m).priority := by
              have hs := hsel.1
              rw [hvt] at hs
              have hs2 : ((getTaskNat tl t).priority : Int) <
                  ((getTaskNat tl m).priority : Int) := hs
              exact_mod_cast hs2
            exact Nat.le_of_lt (Nat.lt_of_le_of_lt h1 h2)
        · subst hj
          exact Nat.le_refl _
      · intro j hj hr heq
        rcases Nat.lt_succ_iff_lt_or_eq.mp hj with hj | hj
        · rcases ih hp2 with ⟨hval, hnone⟩ | ⟨t, ht, hvt, hrt, hmax, htie⟩
          · exact absurd hr (hnone j hj)
          · have h1 := hmax j hj hr
            have h2 : (getTaskNat tl t).priority < (getTaskNat tl m).priority := by
              have hs := hsel.1
              rw [hvt] at hs
              have hs2 : ((getTaskNat tl t).priority : Int) <
                  ((getTaskNat tl m).priority : Int) := hs
              exact_mod_cast hs2
            omega
        · subst hj
          exact Nat.le_refl _
    · have hstep : dispLoop tl (m + 1) = dispLoop tl m := by
        show (if _ then _ else _) = _
        rw [if_neg hsel]
      rcases ih hp2 with ⟨hval, hnone⟩ | ⟨t, ht, hvt, hrt, hmax, htie⟩
      · refine Or.inl ⟨hstep.trans hval, fun j hj hc => ?_⟩
        rcases Nat.lt_succ_iff_lt_or_eq.mp hj with hj | hj
        · exact hnone j hj hc
        · subst hj
          apply hsel
          refine ⟨?_, hc⟩
          rw [hval]
          have : (0 : Int) ≤ ((getTaskNat tl j).priority : Int) := Int.ofNat_nonneg _
          omega
      · refine Or.inr ⟨t, Nat.lt_succ_of_lt ht, hstep.trans hvt, hrt, ?_, ?_⟩
        · intro j hj hr
          rcases Nat.lt_succ_iff_lt_or_eq.mp hj with hj | hj
          · exact hmax j hj hr
          · subst hj
            have hle : ¬ (dispLoop tl j).2 < ((getTaskNat tl j).priority : Int) :=
              fun hc => hsel ⟨hc, hr⟩
            rw [hvt] at hle
            have hle2 : ¬ ((getTaskNat tl t).priority : Int) <
                ((getTaskNat tl j).priority : Int) := hle
            have h3 : ((getTaskNat tl j).priority : Int) ≤
                ((getTaskNat tl t).priority : Int) := by omega
            exact_mod_cast h3
        · intro j hj hr heq
          rcases Nat.lt_succ_iff_lt_or_eq.mp hj with hj | hj
          · exact htie j hj hr heq
          · subst hj
            exact Nat.le_of_lt ht

theorem getState_update_sp (tl : TaskList) (h : Int) (v : Int) (i : Nat) :
    (getTaskNat (updateTaskI tl h (fun t => { t with sp := v })) i).state =
      (getTaskNat tl i).state := by
  rw [getTaskNat_updateTaskI]
  split <;> rfl

theorem getLocal_update_sp (tl : TaskList) (h : Int) (v : Int) (i : Nat) :
    (getTaskNat (updateTaskI tl h (fun t => { t with sp := v })) i).local_tick =
      (getTaskNat tl i).local_tick := by
  rw [getTaskNat_updateTaskI]
  split <;> rfl

theorem getPrio_update_sp (tl : TaskList) (h : Int) (v : Int) (i : Nat) :
    (getTaskNat (updateTaskI tl h (fun t => { t with sp := v })) i).priority =
      (getTaskNat tl i).priority := by
  rw [getTaskNat_updateTaskI]
  split <;> rfl

theorem getSp_update_state (tl : TaskList) (h : Int) (s : task_state_e) (i : Nat) :
    (getTaskNat (updateTaskI tl h (fun t => { t with state := s })) i).sp =
      (getTaskNat tl i).sp := by
  rw [getTaskNat_updateTaskI]
  split <;> rfl

theorem getLocal_update_state (tl : TaskList) (h : Int) (s : task_state_e) (i : Nat) :
    (getTaskNat (updateTaskI tl h (fun t => { t with state := s })) i).local_tick =
      (getTaskNat tl i).local_tick := by
  rw [getTaskNat_updateTaskI]
  split <;> rfl

theorem context_switch_first_run (ty : task_switch_type_e) (k : Kernel) :
    (context_switch ty k).first_run = false := by
  unfold context_switch
  split <;> rfl

theorem context_switch_pendsv (ty : task_switch_type_e) (k : Kernel) :
    (context_switch ty k).pendsv = true := by
  unfold context_switch
  split <;> rfl

theorem context_switch_current (ty : task_switch_type_e) (k : Kernel) :
    (context_switch ty k).task_list.current_task = k.task_list.next_task := by
  by_cases hfr : k.first_run = false
  · simp only [context_switch, if_pos hfr, updateTaskI_current, updateTaskI_next]
  · simp only [context_switch, if_neg hfr, updateTaskI_current]

theorem context_switch_nTasks (ty : task_switch_type_e) (k : Kernel) :
    (context_switch ty k).task_list.nTasks = k.task_list.nTasks := by
  by_cases hfr : k.first_run = false
  · simp only [context_switch, if_pos hfr, updateTaskI_nTasks]
  · simp only [context_switch, if_neg hfr, updateTaskI_nTasks]

theorem context_switch_length (ty : task_switch_type_e) (k : Kernel) :
    (context_switch ty k).task_list.tasks.length = k.task_list.tasks.length := by
  by_cases hfr : k.first_run = false
  · simp only [context_switch, if_pos hfr, updateTaskI_length]
  · simp only [context_switch, if_neg hfr, updateTaskI_length]

theorem getTaskNat_eq (tl : TaskList) (i : Nat) : getTaskNat tl i = tl.tasks.getD i tcb0 :=
  rfl

theorem updateTaskI_tasks (tl : TaskList) (h : Int) (f : rtos_tcb_t → rtos_tcb_t) :
    (updateTaskI tl h f).tasks =
      if 0 ≤ h then tl.tasks.set h.toNat (f (tl.tasks.getD h.toNat tcb0)) else tl.tasks := by
  unfold updateTaskI updateTaskNat setTaskNat getTaskNat
  split <;> rfl

theorem list_getD_if_set (l : List rtos_tcb_t) (h : Int) (a : rtos_tcb_t) (j : Nat) :
    (if 0 ≤ h then l.set h.toNat a else l).getD j tcb0 =
      if 0 ≤ h ∧ h.toNat = j ∧ j < l.length then a else l.getD j tcb0 := by
  by_cases h0 : 0 ≤ h
  · rw [if_pos h0, list_getD_set]
    by_cases hj : h.toNat = j ∧ j < l.length
    · rw [if_pos hj, if_pos ⟨h0, hj⟩]
    · rw [if_neg hj, if_neg (fun hc => hj ⟨hc.2.1, hc.2.2⟩)]
  · rw [if_neg h0, if_neg (fun hc => h0 hc.1)]

theorem context_switch_getState (ty : task_switch_type_e) (k : Kernel) (i : Nat) :
    (getTaskNat (context_switch ty k).task_list i).state =
      if 0 ≤ k.task_list.next_task ∧ k.task_list.next_task.toNat = i ∧
          i < k.task_list.tasks.length
      then S_RUNNING else (getTaskNat k.task_list i).state := by
  by_cases hfr : k.first_run = false
  · simp only [context_switch, if_pos hfr, getTaskNat_eq, updateTaskI_tasks,
      updateTaskI_next, updateTaskI_length]
    by_cases hcur : (0 : Int) ≤ k.task_list.current_task
    · simp only [if_pos hcur, list_getD_if_set, List.length_set, list_getD_set]
      split
      · rfl
      · split
        · rename_i hout hin
          rw [hin.1]
        · rfl
    · simp only [if_neg hcur, list_getD_if_set]
      split
      · rfl
      · rfl
  · simp only [context_switch, if_neg hfr, getTaskNat_eq, updateTaskI_tasks,
      list_getD_if_set]
    split
    · rfl
    · rfl

theorem context_switch_getLocal (ty : task_switch_type_e) (k : Kernel) (i : Nat) :
    (getTaskNat (context_switch ty k).task_list i).local_tick =
      (getTaskNat k.task_list i).local_tick := by
  by_cases hfr : k.first_run = false
  · simp only [context_switch, if_pos hfr, getTaskNat_eq, updateTaskI_tasks,
      updateTaskI_next, updateTaskI_length]
    by_cases hcur : (0 : Int) ≤ k.task_list.current_task
    · simp only [if_pos hcur, list_getD_if_set, List.length_set, list_getD_set]
      split
      · split
        · rename_i hout hin
          rw [← hout.2.1, hin.1]
        · rename_i hout hin
          rw [← hout.2.1]
      · split
        · rename_i hout hin
          rw [hin.1]
        · rfl
    · simp only [if_neg hcur, list_getD_if_set]
      split
      · rename_i hout
        rw [← hout.2.1]
      · rfl
  · simp only [context_switch, if_neg hfr, getTaskNat_eq, updateTaskI_tasks,
      list_getD_if_set]
    split
    · rename_i hout
      rw [← hout.2.1]
    · rfl

theorem dispatcher_after_block (ty : task_switch_type_e) (k : Kernel) (c : Nat)
    (hc : k.task_list.current_task = (c : Int))
    (hlen : k.task_list.nTasks ≤ k.task_list.tasks.length)
    (hcnr : ¬ runnable (getTaskNat k.task_list c))
    (hcand : ∃ j < k.task_list.nTasks, runnable (getTaskNat k.task_list j)) :
    ∃ m : Nat, m < k.task_list.nTasks ∧ m ≠ c ∧
      (dispatcher ty k).task_list.nTasks = k.task_list.nTasks ∧
      (dispatcher ty k).task_list.current_task = (m : Int) ∧
      (∀ i, (getTaskNat (dispatcher ty k).task_list i).state =
        if i = m then S_RUNNING else (getTaskNat k.task_list i).state) ∧
      (∀ i, (getTaskNat (dispatcher ty k).task_list i).local_tick =
        (getTaskNat k.task_list i).local_tick) := by
  obtain ⟨m, hm, hv1, hrm⟩ := dispLoop_found k.task_list k.task_list.nTasks hcand
  have hmc : m ≠ c := fun hmc => hcnr (hmc ▸ hrm)
  have hne : (dispLoop k.task_list k.task_list.nTasks).1 ≠ k.task_list.current_task := by
    rw [hv1, hc]
    intro hcon
    exact hmc (by exact_mod_cast hcon)
  have hd : dispatcher ty k =
      context_switch ty { k with task_list :=
        { k.task_list with next_task := (m : Int) } } := by
    simp only [dispatcher]
    rw [if_pos hne, hv1]
  refine ⟨m, hm, hmc, ?_, ?_, ?_, ?_⟩
  · rw [hd, context_switch_nTasks]
  · rw [hd, context_switch_current]
  · intro i
    rw [hd, context_switch_getState]
    by_cases him : i = m
    · subst him
      rw [if_pos ⟨Int.ofNat_nonneg i, Int.toNat_natCast i,
        Nat.lt_of_lt_of_le hm hlen⟩, if_pos rfl]
    · rw [if_neg ?hno, if_neg him]
      case hno =>
        intro hcon
        have h2 : ((m : Nat) : Int).toNat = i := hcon.2.1
        rw [Int.toNat_natCast] at h2
        exact him h2.symm
      rfl
  · intro i
    rw [hd, context_switch_getLocal]
    rfl

theorem setTaskNat_self (tl : TaskList) (i : Nat) :
    setTaskNat tl i (getTaskNat tl i) = tl := by
  unfold setTaskNat getTaskNat
  rw [list_set_getD_self]

theorem updateTaskI_state_override (tl : TaskList) (h : Int) (st : task_state_e) :
    updateTaskI (updateTaskI tl h (fun t => { t with state := st })) h
        (fun t => { t with state := S_READY }) =
      updateTaskI tl h (fun t => { t with state := S_READY }) := by
  by_cases h0 : 0 ≤ h
  · simp only [updateTaskI, if_pos h0, updateTaskNat, setTaskNat, getTaskNat]
    congr 1
    by_cases hl : h.toNat < tl.tasks.length
    · simp only [list_getD_set]
      split
      · rw [List.set_set]
      · rename_i hcon
        exact absurd ⟨by trivial, hl⟩ hcon
    · rw [list_set_oob _ _ _ (Nat.le_of_not_lt hl), list_set_oob _ _ _ (Nat.le_of_not_lt hl)]
  · simp only [updateTaskI, if_neg h0]

/-- C9: the deferred-switch handler (PendSV_Handler) leaves the whole TCB
store unchanged; it only reads the current task's saved stack pointer and
installs it as the active CPU stack pointer, and clears the pending bit. -/
theorem pendsv_frame (k : Kernel) :
    (PendSV_Handler k).task_list = k.task_list ∧
    (PendSV_Handler k).cpu_sp = (getTaskI k.task_list k.task_list.current_task).sp ∧
    (PendSV_Handler k).pendsv = false :=
  ⟨rfl, rfl, rfl⟩

/-- C10: rtos_activate_task writes S_READY into the target TCB
unconditionally (no check of the previous state) and then invokes the
dispatcher; in particular its result does not depend on whether the
target was RUNNING, READY, WAITING or SUSPENDED before the call. -/
theorem activate_unconditional_ready (k : Kernel) (task : Int) :
    rtos_activate_task k task =
      dispatcher kFromNormalExec
        { k with task_list :=
            updateTaskI k.task_list task (fun t => { t with state := S_READY }) } ∧
    ∀ st : task_state_e,
      rtos_activate_task
          { k with task_list :=
              updateTaskI k.task_list task (fun t => { t with state := st }) } task =
        rtos_activate_task k task := by
  refine ⟨rfl, fun st => ?_⟩
  show dispatcher kFromNormalExec _ = dispatcher kFromNormalExec _
  congr 1
  show Kernel.mk _ k.first_run k.pendsv k.cpu_sp = Kernel.mk _ k.first_run k.pendsv k.cpu_sp
  congr 1
  exact updateTaskI_state_override k.task_list task st

/-- C8: on any store whose slot at index nTasks is READY (as the
zero-initialised spare slot is), the wake-up pass of the source, which
iterates over [0, nTasks] inclusive, produces exactly the store produced
by the loop over the half-open range [0, nTasks): the off-by-one is
observationally inert. -/
theorem awt_off_by_one_inert (tl : TaskList)
    (hz : (getTaskNat tl tl.nTasks).state = S_READY) :
    activate_waiting_tasks tl = activate_waiting_tasks_spec tl := by
  show updateTaskNat (awtLoop tl tl.nTasks) tl.nTasks awt_body = awtLoop tl tl.nTasks
  have hget : getTaskNat (awtLoop tl tl.nTasks) tl.nTasks = getTaskNat tl tl.nTasks := by
    rw [awtLoop_getTaskNat, if_neg (Nat.lt_irrefl _)]
  unfold updateTaskNat
  rw [hget, awt_body_not_waiting _ (by rw [hz]; simp), ← hget, setTaskNat_self]

/-- C3 (the code side of the claim, evaluated): with the maximum set to 2
user tasks, three create_task calls before start_scheduler return the
handles 0, 1 and INVALID_TASK; but the idle-task creation performed by
rtos_start_scheduler itself then also returns INVALID_TASK, because the
capacity guard admits only RTOS_MAX_NUMBER_OF_TASKS tasks and never uses
the extra array slot. -/
theorem idle_create_fails_at_capacity :
    (rtos_create_task cfg3 (initTaskList cfg3) 111 1 kAutoStart).2 = 0 ∧
    (rtos_create_task cfg3 (rtos_create_task cfg3 (initTaskList cfg3) 111 1
      kAutoStart).1 222 2 kAutoStart).2 = 1 ∧
    (rtos_create_task cfg3 (rtos_create_task cfg3 (rtos_create_task cfg3
      (initTaskList cfg3) 111 1 kAutoStart).1 222 2 kAutoStart).1 333 3
      kAutoStart).2 = INVALID_TASK ∧
    (rtos_start_scheduler cfg3 (rtos_create_task cfg3 (rtos_create_task cfg3
      (rtos_create_task cfg3 (initTaskList cfg3) 111 1 kAutoStart).1 222 2
      kAutoStart).1 333 3 kAutoStart).1).2 = INVALID_TASK := by
  decide

/-- C5: create_task returns INVALID_TASK exactly when capacity is
exhausted (nTasks has reached the configured maximum); on success it
returns the next sequential handle, increments the task count, and
initialises the new TCB with the given priority and entry function, zero
local tick, and state READY under kAutoStart or SUSPENDED under
kStartSuspended.  All other API operations of the model are total
functions with no error channel. -/
theorem create_task_contract (cfg : Config) (tl : TaskList) (body p : Nat)
    (a : rtos_autostart_e) (hlen : tl.nTasks < tl.tasks.length) :
    ((rtos_create_task cfg tl body p a).2 = INVALID_TASK ↔ cfg.maxTasks ≤ tl.nTasks) ∧
    (tl.nTasks < cfg.maxTasks →
      (rtos_create_task cfg tl body p a).2 = (tl.nTasks : Int) ∧
      (rtos_create_task cfg tl body p a).1.nTasks = tl.nTasks + 1 ∧
      (getTaskNat (rtos_create_task cfg tl body p a).1 tl.nTasks).priority = p ∧
      (getTaskNat (rtos_create_task cfg tl body p a).1 tl.nTasks).task_body = body ∧
      (getTaskNat (rtos_create_task cfg tl body p a).1 tl.nTasks).local_tick = 0 ∧
      (a = kAutoStart →
        (getTaskNat (rtos_create_task cfg tl body p a).1 tl.nTasks).state = S_READY) ∧
      (a = kStartSuspended →
        (getTaskNat (rtos_create_task cfg tl body p a).1 tl.nTasks).state = S_SUSPENDED)) := by
  by_cases hcap : cfg.maxTasks > tl.nTasks
  · constructor
    · constructor
      · intro hcon
        simp only [rtos_create_task, if_pos hcap, INVALID_TASK] at hcon
        have h0 : (0 : Int) ≤ (tl.nTasks : Int) := Int.ofNat_nonneg _
        omega
      · intro hcon
        omega
    · intro hlt
      refine ⟨?_, ?_, ?_, ?_, ?_, ?_, ?_⟩
      · simp only [rtos_create_task, if_pos hcap]
      · simp only [rtos_create_task, if_pos hcap]
      all_goals
        simp only [rtos_create_task, if_pos hcap, getTaskNat_eq, setTaskNat, list_getD_set]
      · split
        · rfl
        · rename_i hcon
          exact absurd ⟨by trivial, hlen⟩ hcon
      · split
        · rfl
        · rename_i hcon
          exact absurd ⟨by trivial, hlen⟩ hcon
      · split
        · rfl
        · rename_i hcon
          exact absurd ⟨by trivial, hlen⟩ hcon
      · intro ha
        subst ha
        split
        · rfl
        · rename_i hcon
          exact absurd ⟨by trivial, hlen⟩ hcon
      · intro ha
        subst ha
        split
        · rfl
        · rename_i hcon
          exact absurd ⟨by trivial, hlen⟩ hcon
  · constructor
    · simp only [rtos_create_task, if_neg hcap, INVALID_TASK]
      constructor
      · intro _
        omega
      · intro _
        trivial
    · intro hlt
      exact absurd hlt hcap

/-- C1 (counterexample): on the concrete kernel kC1, task 0 calls
delay(0); at the next tick the wake-up pass does not promote it to READY
-- its local_tick wraps to 2^32 - 1 and it stays WAITING, refuting the
claim that delay(0) is a one-tick yield. -/
theorem delay_zero_not_promoted_next_tick :
    (getTaskNat (SysTick_Handler (rtos_delay kC1 0)).task_list 0).state = S_WAITING ∧
    (getTaskNat (SysTick_Handler (rtos_delay kC1 0)).task_list 0).local_tick =
      UINT32_MOD - 1 ∧
    (getTaskNat (SysTick_Handler (rtos_delay kC1 0)).task_list 0).state ≠ S_READY := by
  decide



theorem dispatcher_after_update (ty : task_switch_type_e) (k : Kernel) (c : Nat)
    (f : rtos_tcb_t → rtos_tcb_t)
    (hc : k.task_list.current_task = (c : Int))
    (hcn : c < k.task_list.nTasks)
    (hlen : k.task_list.nTasks ≤ k.task_list.tasks.length)
    (hf : ∀ x : rtos_tcb_t, ¬ runnable (f x))
    (hidle : ∃ j < k.task_list.nTasks, j ≠ c ∧ (getTaskNat k.task_list j).state = S_READY) :
    ∃ m : Nat, m < k.task_list.nTasks ∧ m ≠ c ∧
      (dispatcher ty (writeCurrent k f)).task_list.nTasks = k.task_list.nTasks ∧
      (dispatcher ty (writeCurrent k f)).task_list.current_task = (m : Int) ∧
      (∀ i, (getTaskNat (dispatcher ty (writeCurrent k f)).task_list i).state =
        if i = m then S_RUNNING
        else if i = c then (f (getTaskNat k.task_list c)).state
        else (getTaskNat k.task_list i).state) ∧
      (∀ i, (getTaskNat (dispatcher ty (writeCurrent k f)).task_list i).local_tick =
        if i = c then (f (getTaskNat k.task_list c)).local_tick
        else (getTaskNat k.task_list i).local_tick) := by
  have hclen : c < k.task_list.tasks.length := Nat.lt_of_lt_of_le hcn hlen
  have hgc : getTaskNat (writeCurrent k f).task_list c = f (getTaskNat k.task_list c) := by
    show getTaskNat (updateTaskI k.task_list k.task_list.current_task f) c = _
    rw [hc, getTaskNat_updateTaskI,
      if_pos ⟨Int.ofNat_nonneg c, Int.toNat_natCast c, hclen⟩]
  have hgother : ∀ j : Nat, j ≠ c →
      getTaskNat (writeCurrent k f).task_list j = getTaskNat k.task_list j := by
    intro j hj
    show getTaskNat (updateTaskI k.task_list k.task_list.current_task f) j = _
    rw [hc, getTaskNat_updateTaskI, if_neg ?hno]
    case hno =>
      intro hcon
      have h2 : ((c : Nat) : Int).toNat = j := hcon.2.1
      rw [Int.toNat_natCast] at h2
      exact hj h2.symm
  have hw_nTasks : (writeCurrent k f).task_list.nTasks = k.task_list.nTasks := by
    show (updateTaskI k.task_list k.task_list.current_task f).nTasks = _
    rw [updateTaskI_nTasks]
  have hcur1 : (writeCurrent k f).task_list.current_task = (c : Int) := by
    show (updateTaskI k.task_list k.task_list.current_task f).current_task = _
    rw [updateTaskI_current]
    exact hc
  have hlen1 : (writeCurrent k f).task_list.nTasks ≤
      (writeCurrent k f).task_list.tasks.length := by
    show (updateTaskI k.task_list k.task_list.current_task f).nTasks ≤
      (updateTaskI k.task_list k.task_list.current_task f).tasks.length
    rw [updateTaskI_nTasks, updateTaskI_length]
    exact hlen
  have hcnr1 : ¬ runnable (getTaskNat (writeCurrent k f).task_list c) := by
    rw [hgc]
    exact hf _
  have hcand1 : ∃ j < (writeCurrent k f).task_list.nTasks,
      runnable (getTaskNat (writeCurrent k f).task_list j) := by
    obtain ⟨j, hjn, hjc, hjr⟩ := hidle
    refine ⟨j, ?_, ?_⟩
    · rw [hw_nTasks]
      exact hjn
    · rw [hgother j hjc]
      exact Or.inl hjr
  obtain ⟨m, hm, hmc, hnT, hcur, hstate, hlocal⟩ :=
    dispatcher_after_block ty (writeCurrent k f) c hcur1 hlen1 hcnr1 hcand1
  rw [hw_nTasks] at hm hnT
  refine ⟨m, hm, hmc, hnT, hcur, ?_, ?_⟩
  · intro i
    rw [hstate i]
    by_cases him : i = m
    · rw [if_pos him, if_pos him]
    · rw [if_neg him, if_neg him]
      by_cases hic : i = c
      · subst hic
        rw [if_pos rfl, hgc]
      · rw [if_neg hic, hgother i hic]
  · intro i
    rw [hlocal i]
    by_cases hic : i = c
    · subst hic
      rw [if_pos rfl, hgc]
    · rw [if_neg hic, hgother i hic]

/-- C1 (amended): rtos_delay(0) puts the current task into WAITING with
local_tick = 0, and the next wake-up pass then decrements the counter
with uint32 wrap-around to 2^32 - 1 and leaves the task in WAITING:
delay(0) is not a one-tick yield but a 2^32-tick delay. -/
theorem delay_zero_waits_wraparound (k : Kernel) (c : Nat)
    (hc : k.task_list.current_task = (c : Int))
    (hcn : c < k.task_list.nTasks)
    (hlen : k.task_list.nTasks ≤ k.task_list.tasks.length)
    (hidle : ∃ j < k.task_list.nTasks, j ≠ c ∧ (getTaskNat k.task_list j).state = S_READY) :
    (getTaskNat (rtos_delay k 0).task_list c).state = S_WAITING ∧
    (getTaskNat (rtos_delay k 0).task_list c).local_tick = 0 ∧
    (getTaskNat (activate_waiting_tasks (rtos_delay k 0).task_list) c).state = S_WAITING ∧
    (getTaskNat (activate_waiting_tasks (rtos_delay k 0).task_list) c).local_tick =
      UINT32_MOD - 1 := by
  have hd : rtos_delay k 0 = dispatcher kFromNormalExec
      (writeCurrent k (fun u => { u with state := S_WAITING, local_tick := 0 % UINT32_MOD })) :=
    rfl
  obtain ⟨m, hm, hmc, hnT, hcur, hstate, hlocal⟩ :=
    dispatcher_after_update kFromNormalExec k c
      (fun u => { u with state := S_WAITING, local_tick := 0 % UINT32_MOD }) hc hcn hlen
      (fun x hr => by rcases hr with hr | hr <;> exact task_state_e.noConfusion hr) hidle
  have hst : (getTaskNat (rtos_delay k 0).task_list c).state = S_WAITING := by
    rw [hd, hstate c, if_neg (fun h => hmc h.symm), if_pos rfl]
  have hlt : (getTaskNat (rtos_delay k 0).task_list c).local_tick = 0 := by
    rw [hd, hlocal c, if_pos rfl]
    exact Nat.zero_mod _
  have hnT2 : (rtos_delay k 0).task_list.nTasks = k.task_list.nTasks := by
    rw [hd, hnT]
  have hawt : getTaskNat (activate_waiting_tasks (rtos_delay k 0).task_list) c =
      awt_body (getTaskNat (rtos_delay k 0).task_list c) := by
    show getTaskNat (awtLoop _ _) c = _
    rw [awtLoop_getTaskNat, if_pos ?hin]
    case hin =>
      rw [hnT2]
      exact Nat.lt_succ_of_lt hcn
  have hbody : (awt_body (getTaskNat (rtos_delay k 0).task_list c)).state = S_WAITING ∧
      (awt_body (getTaskNat (rtos_delay k 0).task_list c)).local_tick = UINT32_MOD - 1 := by
    unfold awt_body
    rw [if_pos hst, hlt]
    norm_num [UINT32_MOD, hst]
  exact ⟨hst, hlt, by rw [hawt]; exact hbody.1, by rw [hawt]; exact hbody.2⟩

/-- C1 (witness): the delay(0) theorem instantiated on the concrete
kernel kW1 (task 0 RUNNING and current, idle task READY at index 1). -/
theorem delay_zero_waits_wraparound_witness :
    (getTaskNat (activate_waiting_tasks (rtos_delay kW1 0).task_list) 0).state =
      S_WAITING :=
  (delay_zero_waits_wraparound kW1 0 (by decide) (by decide) (by decide)
    (by decide)).2.2.1

/-- C2 (counterexample): on the concrete kernel kC2 (task 1 of priority
1 RUNNING and current, task 0 of priority 2 READY) a single tick-handler
run preempts task 1 but leaves it in state RUNNING alongside task 0, so
after the tick two tasks are RUNNING and the at-most-one-RUNNING
invariant is violated. -/
theorem tick_preemption_two_running :
    (getTaskNat (SysTick_Handler kC2).task_list 0).state = S_RUNNING ∧
    (getTaskNat (SysTick_Handler kC2).task_list 1).state = S_RUNNING ∧
    (SysTick_Handler kC2).task_list.nTasks = 2 ∧
    ¬ atMostOneRunning (SysTick_Handler kC2).task_list := by
  decide

/-- C2 (amended): the self-blocking API calls preserve the invariant:
from a state whose only RUNNING task (among the created ones) is the
current task and in which some other task is READY (the idle-task
guarantee), both rtos_delay and rtos_suspend_task leave at most one task
RUNNING.  A preemptive switch taken from the tick handler, by contrast,
leaves the preempted task RUNNING (see the counterexample), so the
invariant does not hold across tick-handler dispatches. -/
theorem self_block_preserves_single_running (k : Kernel) (ticks : Nat) (c : Nat)
    (hc : k.task_list.current_task = (c : Int))
    (hcn : c < k.task_list.nTasks)
    (hlen : k.task_list.nTasks ≤ k.task_list.tasks.length)
    (honly : ∀ i < k.task_list.nTasks,
      (getTaskNat k.task_list i).state = S_RUNNING → i = c)
    (hidle : ∃ j < k.task_list.nTasks, j ≠ c ∧ (getTaskNat k.task_list j).state = S_READY) :
    atMostOneRunning (rtos_delay k ticks).task_list ∧
    atMostOneRunning (rtos_suspend_task k).task_list := by
  have key : ∀ (ty : task_switch_type_e) (f : rtos_tcb_t → rtos_tcb_t),
      (∀ x : rtos_tcb_t, ¬ runnable (f x)) →
      atMostOneRunning (dispatcher ty (writeCurrent k f)).task_list := by
    intro ty f hf
    obtain ⟨m, hm, hmc, hnT, hcur, hstate, hlocal⟩ :=
      dispatcher_after_update ty k c f hc hcn hlen hf hidle
    intro i hi j hj hri hrj
    rw [hnT] at hi hj
    rw [hstate i] at hri
    rw [hstate j] at hrj
    have him : i = m := by
      by_contra hne
      rw [if_neg hne] at hri
      by_cases hic : i = c
      · rw [if_pos hic] at hri
        exact hf (getTaskNat k.task_list c) (Or.inr hri)
      · rw [if_neg hic] at hri
        exact hic (honly i hi hri)
    have hjm : j = m := by
      by_contra hne
      rw [if_neg hne] at hrj
      by_cases hjc : j = c
      · rw [if_pos hjc] at hrj
        exact hf (getTaskNat k.task_list c) (Or.inr hrj)
      · rw [if_neg hjc] at hrj
        exact hjc (honly j hj hrj)
    rw [him, hjm]
  constructor
  · exact key kFromNormalExec
      (fun u => { u with state := S_WAITING, local_tick := ticks % UINT32_MOD })
      (fun x hr => by rcases hr with hr | hr <;> exact task_state_e.noConfusion hr)
  · exact key kFromNormalExec (fun u => { u with state := S_SUSPENDED })
      (fun x hr => by rcases hr with hr | hr <;> exact task_state_e.noConfusion hr)

/-- C2 (witness): the preservation theorem instantiated on the concrete
kernel kW2. -/
theorem self_block_preserves_single_running_witness :
    atMostOneRunning (rtos_delay kW2 5).task_list :=
  (self_block_preserves_single_running kW2 5 0 (by decide) (by decide) (by decide)
    (by decide) (by decide)).1

/-- C4 (counterexample): on the concrete kernel kC4, task 0 with
priority 128 is RUNNING and current, and task 1 with priority 1 is
READY; the dispatcher nevertheless switches to task 1, because the
int8_t accumulator turns priority 128 into -128.  This refutes the
claim for the full unsigned 8-bit priority range. -/
theorem dispatcher_priority128_misselect :
    (dispatcher kFromISR kC4).task_list.current_task = 1 ∧
    (dispLoop kC4.task_list kC4.task_list.nTasks).1 = 1 ∧
    runnable (getTaskNat kC4.task_list 0) ∧
    (getTaskNat kC4.task_list 0).priority = 128 ∧
    (getTaskNat kC4.task_list 1).priority = 1 := by
  decide

/-- C4 (amended): provided every created task's priority is at most 127
(so that the int8_t truncation in the scan is the identity), the
dispatcher's scan selects a READY-or-RUNNING task of maximal priority,
the lowest index winning ties; and whenever the scan's winner equals
current_task the dispatcher returns with the kernel state unchanged
(next_task in particular is not written). -/
theorem dispatcher_max_priority_small (ty : task_switch_type_e) (k : Kernel)
    (hp : ∀ i < k.task_list.nTasks, (getTaskNat k.task_list i).priority < 128) :
    ((∃ j < k.task_list.nTasks, runnable (getTaskNat k.task_list j)) →
      ∃ m : Nat, m < k.task_list.nTasks ∧
        (dispLoop k.task_list k.task_list.nTasks).1 = (m : Int) ∧
        runnable (getTaskNat k.task_list m) ∧
        (∀ j < k.task_list.nTasks, runnable (getTaskNat k.task_list j) →
          (getTaskNat k.task_list j).priority ≤ (getTaskNat k.task_list m).priority) ∧
        (∀ j < k.task_list.nTasks, runnable (getTaskNat k.task_list j) →
          (getTaskNat k.task_list j).priority = (getTaskNat k.task_list m).priority →
          m ≤ j)) ∧
    ((dispLoop k.task_list k.task_list.nTasks).1 = k.task_list.current_task →
      dispatcher ty k = k) := by
  constructor
  · intro hcand
    rcases dispLoop_max k.task_list k.task_list.nTasks hp with
      ⟨hval, hnone⟩ | ⟨t, ht, hvt, hrt, hmax, htie⟩
    · obtain ⟨j, hj, hr⟩ := hcand
      exact absurd hr (hnone j hj)
    · exact ⟨t, ht, by rw [hvt], hrt, hmax, htie⟩
  · intro heq
    simp only [dispatcher]
    rw [if_neg (fun hcon => hcon heq)]

/-- C4 (witness): on the concrete kernel kW4, whose priorities are below
128 and whose current task is the scan's winner, the dispatcher returns
the state unchanged. -/
theorem dispatcher_max_priority_small_witness : dispatcher kFromISR kW4 = kW4 :=
  (dispatcher_max_priority_small kFromISR kW4 (by decide)).2 (by decide)

/-- C6: Phase 1 of the context switch: on the very first switch the
outgoing stack-pointer save is skipped (no TCB's sp changes); on every
later switch the outgoing (current) task's sp is recorded as the
observed CPU stack pointer minus 9 words when the origin is a
thread-context API call (kFromNormalExec) and plus 9 words when the
origin is the tick interrupt (kFromISR); then next_task is adopted as
current_task, its state is set to RUNNING, the first-run flag is
cleared, and the deferred-switch interrupt (PendSV) is pended. -/
theorem context_switch_phase1 (ty : task_switch_type_e) (k : Kernel)
    (hnx0 : 0 ≤ k.task_list.next_task)
    (hnxl : k.task_list.next_task.toNat < k.task_list.tasks.length) :
    (context_switch ty k).first_run = false ∧
    (context_switch ty k).pendsv = true ∧
    (context_switch ty k).task_list.current_task = k.task_list.next_task ∧
    (getTaskNat (context_switch ty k).task_list k.task_list.next_task.toNat).state =
      S_RUNNING ∧
    (k.first_run = true →
      ∀ i, (getTaskNat (context_switch ty k).task_list i).sp =
        (getTaskNat k.task_list i).sp) ∧
    (k.first_run = false → ∀ c : Nat, k.task_list.current_task = (c : Int) →
      c < k.task_list.tasks.length →
      (getTaskNat (context_switch ty k).task_list c).sp =
        (if kFromNormalExec = ty then k.cpu_sp - 9 else k.cpu_sp + 9)) := by
  refine ⟨context_switch_first_run ty k, context_switch_pendsv ty k,
    context_switch_current ty k, ?_, ?_, ?_⟩
  · rw [context_switch_getState, if_pos ⟨hnx0, rfl, hnxl⟩]
  · intro hfr i
    have hfr2 : ¬ (k.first_run = false) := by
      rw [hfr]
      exact fun hcon => Bool.noConfusion hcon
    simp only [context_switch, if_neg hfr2]
    rw [getTaskNat_updateTaskI]
    split
    · rfl
    · rfl
  · intro hfr c hcc hcl
    simp only [context_switch, if_pos hfr]
    rw [getSp_update_state]
    show (getTaskNat (updateTaskI k.task_list k.task_list.current_task (fun t =>
      { t with sp := if kFromNormalExec = ty then k.cpu_sp - 9 else k.cpu_sp + 9 })) c).sp
      = _
    rw [hcc, getTaskNat_updateTaskI,
      if_pos ⟨Int.ofNat_nonneg c, Int.toNat_natCast c, hcl⟩]

/-- C6 (witness): the phase-1 theorem instantiated on the concrete
kernel kW6, a pending switch from task 0 to task 1 after the first run:
the outgoing sp of task 0 is recorded with the tick-interrupt bias. -/
theorem context_switch_phase1_witness :
    (getTaskNat (context_switch kFromISR kW6).task_list 0).sp =
      (if kFromNormalExec = kFromISR then kW6.cpu_sp - 9 else kW6.cpu_sp + 9) :=
  (context_switch_phase1 kFromISR kW6 (by decide)
    (by decide)).2.2.2.2.2 (by decide) 0 (by decide) (by decide)

/-- C7: after every successful create_task, the new task's stack pointer
(a word address) lies inside that task's own stack region
[stackBase, stackBase + stackSize), the PC slot of the pre-seeded
exception frame (at index RTOS_STACK_SIZE - STACK_PC_OFFSET, the
platform port's layout constant) holds the task's entry address, and the
status-word slot (index RTOS_STACK_SIZE - STACK_PSR_OFFSET) holds
STACK_PSR_DEFAULT. -/
theorem create_task_initial_frame (cfg : Config) (tl : TaskList) (body p : Nat)
    (a : rtos_autostart_e)
    (hcap : tl.nTasks < cfg.maxTasks)
    (hlen : tl.nTasks < tl.tasks.length)
    (hstk : (getTaskNat tl tl.nTasks).stack.length = cfg.stackSize)
    (hsz : 9 ≤ cfg.stackSize) :
    cfg.stackBase tl.nTasks ≤
      (getTaskNat (rtos_create_task cfg tl body p a).1 tl.nTasks).sp ∧
    (getTaskNat (rtos_create_task cfg tl body p a).1 tl.nTasks).sp <
      cfg.stackBase tl.nTasks + (cfg.stackSize : Int) ∧
    (getTaskNat (rtos_create_task cfg tl body p a).1 tl.nTasks).stack.getD
      (cfg.stackSize - STACK_PC_OFFSET) 0 = body ∧
    (getTaskNat (rtos_create_task cfg tl body p a).1 tl.nTasks).stack.getD
      (cfg.stackSize - STACK_PSR_OFFSET) 0 = STACK_PSR_DEFAULT := by
  have h9 : (9 : Int) ≤ (cfg.stackSize : Int) := by exact_mod_cast hsz
  have hsp : (getTaskNat (rtos_create_task cfg tl body p a).1 tl.nTasks).sp =
      cfg.stackBase tl.nTasks +
        ((cfg.stackSize : Int) - 1 - (STACK_FRAME_SIZE : Int)) := by
    simp only [rtos_create_task, if_pos hcap, getTaskNat_eq, setTaskNat, list_getD_set]
    split
    · rfl
    · rename_i hcon
      exact absurd ⟨by trivial, hlen⟩ hcon
  have hstack : (getTaskNat (rtos_create_task cfg tl body p a).1 tl.nTasks).stack =
      ((getTaskNat tl tl.nTasks).stack.set (cfg.stackSize - STACK_PC_OFFSET) body).set
        (cfg.stackSize - STACK_PSR_OFFSET) STACK_PSR_DEFAULT := by
    simp only [rtos_create_task, if_pos hcap, getTaskNat_eq, setTaskNat, list_getD_set]
    split
    · rfl
    · rename_i hcon
      exact absurd ⟨by trivial, hlen⟩ hcon
  refine ⟨?_, ?_, ?_, ?_⟩
  · rw [hsp]
    simp only [STACK_FRAME_SIZE]
    omega
  · rw [hsp]
    simp only [STACK_FRAME_SIZE]
    omega
  · rw [hstack, list_getD_set,
      if_neg (by simp only [STACK_PSR_OFFSET, STACK_PC_OFFSET]; omega),
      list_getD_set,
      if_pos ⟨rfl, by simp only [STACK_PC_OFFSET]; omega⟩]
  · rw [hstack, list_getD_set,
      if_pos ⟨rfl, by rw [List.length_set]; simp only [STACK_PSR_OFFSET]; omega⟩]

/-- C7 (witness): the initial-frame theorem instantiated on the concrete
store tlW5 with the configuration cfg3 (16-word stacks). -/
theorem create_task_initial_frame_witness :
    (getTaskNat (rtos_create_task cfg3 tlW5 777 5 kAutoStart).1 tlW5.nTasks).stack.getD
      (cfg3.stackSize - STACK_PC_OFFSET) 0 = 777 :=
  (create_task_initial_frame cfg3 tlW5 777 5 kAutoStart (by decide) (by decide)
    (by decide) (by decide)).2.2.1

/-- C5 (witness): the create_task contract instantiated on the concrete
store tlW5: the second creation succeeds with handle 1 and priority 5. -/
theorem create_task_contract_witness :
    (getTaskNat (rtos_create_task cfg3 tlW5 777 5 kAutoStart).1 tlW5.nTasks).priority = 5 :=
  ((create_task_contract cfg3 tlW5 777 5 kAutoStart (by decide)).2 (by decide)).2.2.1

/-- C8 (witness): the off-by-one equivalence instantiated on the
concrete store tlW8, whose spare slot at index nTasks = 2 is READY. -/
theorem awt_off_by_one_inert_witness :
    activate_waiting_tasks tlW8 = activate_waiting_tasks_spec tlW8 :=
  awt_off_by_one_inert tlW8 (by decide)
